import Mathlib

/-
  Shallow embedding of the session, authorization and real-time layers of the
  e-learning-front client (src/lib/api.ts, src/contexts/AuthContext.tsx,
  src/components/Layout.tsx CourseChat, src/pages/admin/AdminDashboard.tsx,
  src/App.tsx routes).  Browser storage is modelled as the single durable key
  access_token (an Option String); network outcomes are modelled as explicit
  parameters describing what the server did; React state updates become
  explicit record updates.
-/

namespace ELearn

/-- Role of a platform user, from src/types/index.ts. -/
inductive Role where
  | ADMIN
  | INSTRUCTOR
  | STUDENT
deriving DecidableEq, Repr

/-- User record, from the User interface in src/types/index.ts. -/
structure User where
  id : Nat
  email : String
  username : String
  firstName : String
  lastName : String
  avatar : Option String
  bio : Option String
  role : Role
  isVerified : Bool
  createdAt : String
  updatedAt : String
deriving DecidableEq, Repr

/-- Toast notification surfaced through useToast. -/
structure Toast where
  title : String
  description : String
deriving DecidableEq, Repr

/-- Base URL constant from src/lib/api.ts line 10. -/
def API_BASE_URL : String := "http://localhost:3000"

/-- JS truthiness of a string value: the empty string is falsy, every other
string is truthy. -/
def strTruthy (s : String) : Bool := s ≠ ""

/-- Parsed JSON error body as far as the client inspects it: the optional
message field.  A body whose message field is absent or not readable is
represented by none. -/
structure ErrorBody where
  message : Option String
deriving DecidableEq, Repr

/-- Outcome of one fetch as the client observes it: the promise resolves with
an ok response carrying a value, resolves with a non-ok status (whose JSON
body may or may not parse, hence Option ErrorBody), or rejects with a
transport error. -/
inductive HttpOutcome (α : Type) where
  | success (value : α)
  | httpError (status : Nat) (body : Option ErrorBody)
  | networkError (msg : String)

/-- True when the outcome makes the request helper throw. -/
def HttpOutcome.isFailure {α : Type} : HttpOutcome α → Bool
  | .success _ => false
  | .httpError _ _ => true
  | .networkError _ => true

namespace ApiClient

/-- Embeds ApiClient.request (src/lib/api.ts lines 33-54): on a non-ok
response the JSON body is parsed with a catch that yields an empty object,
and the thrown Error carries errorData.message when that field is truthy,
otherwise the template string fallback. -/
def request {α : Type} (o : HttpOutcome α) : Except String α :=
  match o with
  | .success v => Except.ok v
  | .httpError status body =>
      let errorData : ErrorBody := body.getD ⟨none⟩
      Except.error
        (match errorData.message with
         | some m => if strTruthy m then m else "HTTP error! status: " ++ toString status
         | none => "HTTP error! status: " ++ toString status)
  | .networkError msg => Except.error msg

/-- Response shape of POST /auth/login. -/
structure LoginResponse where
  accessToken : String
  user : User
deriving DecidableEq, Repr

/-- Embeds ApiClient.login (src/lib/api.ts lines 57-76): performs the request
and, on success, stores the token in localStorage only when
response.accessToken is truthy.  Returns the new storage and the result. -/
def login (storage : Option String) (o : HttpOutcome LoginResponse) :
    Option String × Except String LoginResponse :=
  match request o with
  | Except.ok resp =>
      (if strTruthy resp.accessToken then some resp.accessToken else storage,
       Except.ok resp)
  | Except.error e => (storage, Except.error e)

/-- Embeds ApiClient.logout (src/lib/api.ts lines 95-102): try/finally — the
token is removed from storage whether or not the request throws, and a thrown
error still propagates. -/
def logout (storage : Option String) (o : HttpOutcome Unit) :
    Option String × Except String Unit :=
  (none, request o)

/-- Embeds ApiClient.getMe (src/lib/api.ts lines 91-93). -/
def getMe (o : HttpOutcome User) : Except String User :=
  request o

end ApiClient

/-- UTF-8 byte sequence of a code point, used by the encodeURIComponent
model. -/
def utf8Bytes (n : Nat) : List Nat :=
  if n < 0x80 then [n]
  else if n < 0x800 then [0xC0 + n / 0x40, 0x80 + n % 0x40]
  else if n < 0x10000 then
    [0xE0 + n / 0x1000, 0x80 + (n / 0x40) % 0x40, 0x80 + n % 0x40]
  else
    [0xF0 + n / 0x40000, 0x80 + (n / 0x1000) % 0x40,
     0x80 + (n / 0x40) % 0x40, 0x80 + n % 0x40]

/-- Uppercase hexadecimal digit. -/
def hexDigitChar (n : Nat) : Char :=
  if n < 10 then Char.ofNat (48 + n) else Char.ofNat (55 + n)

/-- Percent-encoding of one byte. -/
def percentEncodeByte (b : Nat) : List Char :=
  [Char.ofNat 37, hexDigitChar (b / 16), hexDigitChar (b % 16)]

/-- Characters left unescaped by the ECMAScript encodeURIComponent built-in:
letters, digits, and - _ . ! ~ * ( ) together with the apostrophe (code
point 39). -/
def uriUnescaped (c : Char) : Bool :=
  c.isAlpha || c.isDigit || c = Char.ofNat 45 || c = Char.ofNat 95 ||
  c = Char.ofNat 46 || c = Char.ofNat 33 || c = Char.ofNat 126 ||
  c = Char.ofNat 42 || c = Char.ofNat 39 || c = Char.ofNat 40 || c = Char.ofNat 41

/-- Model of the ECMAScript encodeURIComponent built-in: unescaped characters
pass through, every other character is replaced by the percent-encoding of
its UTF-8 bytes. -/
def encodeURIComponent (s : String) : String :=
  String.mk (s.data.foldr
    (fun c acc =>
      if uriUnescaped c then c :: acc
      else (utf8Bytes c.toNat).foldr (fun b a => percentEncodeByte b ++ a) acc)
    [])

/-- Handle returned by the EventSource constructor: the URL it was opened on
and the withCredentials flag. -/
structure EventStreamConn where
  url : String
  withCredentials : Bool
deriving DecidableEq, Repr

/-- Embeds ApiClient.createEventStream (src/lib/api.ts lines 300-312): with
no stored token it throws "No authentication token found"; with a token it
opens an EventSource on the stream URL with the URL-encoded token as the
token query parameter and withCredentials set. -/
def ApiClient.createEventStream (storage : Option String) :
    Except String EventStreamConn :=
  match storage with
  | none => Except.error "No authentication token found"
  | some t =>
      Except.ok
        ⟨API_BASE_URL ++ "/event/stream?token=" ++ encodeURIComponent t, true⟩

namespace AuthContext

/-- Combined client state the AuthProvider manipulates: the React user and
loading state plus the access_token key of localStorage. -/
structure AuthState where
  user : Option User
  loading : Bool
  storage : Option String
deriving DecidableEq, Repr

/-- Result of the boot-time restoration: the final state and how many
who-am-i requests went out. -/
structure BootResult where
  state : AuthState
  whoAmICalls : Nat
deriving DecidableEq, Repr

/-- Embeds checkAuthStatus (src/contexts/AuthContext.tsx lines 38-60): with
no stored token the user is set to null without any network call; with a
token, getMe is awaited — success populates the user, any failure removes
the token and clears the user; setLoading(false) runs on every path. -/
def checkAuthStatus (storage : Option String) (whoAmI : HttpOutcome User) :
    BootResult :=
  match storage with
  | some tok =>
      match ApiClient.getMe whoAmI with
      | Except.ok u => ⟨⟨some u, false, some tok⟩, 1⟩
      | Except.error _ => ⟨⟨none, false, none⟩, 1⟩
  | none => ⟨⟨none, false, none⟩, 0⟩

/-- Result of a login or logout action: the new state, the error re-thrown
to the caller (none when nothing propagates), and the toasts surfaced. -/
structure ActionResult where
  state : AuthState
  raised : Option String
  toasts : List Toast
deriving DecidableEq, Repr

/-- Embeds login (src/contexts/AuthContext.tsx lines 62-92): apiClient.login
already stored the token as its side effect; on success the user is set and
a success toast shown; on failure an error toast is shown and the error is
re-thrown, with no setUser call. -/
def login (st : AuthState) (o : HttpOutcome ApiClient.LoginResponse) :
    ActionResult :=
  match ApiClient.login st.storage o with
  | (storage2, Except.ok resp) =>
      ⟨⟨some resp.user, st.loading, storage2⟩, none,
        [⟨"Success", "Logged in successfully"⟩]⟩
  | (storage2, Except.error e) =>
      ⟨⟨st.user, st.loading, storage2⟩, some e, [⟨"Error", e⟩]⟩

/-- Embeds logout (src/contexts/AuthContext.tsx lines 94-109):
apiClient.logout removes the token in its finally step; on its success the
user is cleared with a success toast; on its failure the catch removes the
token again, clears the user, and swallows the error. -/
def logout (st : AuthState) (o : HttpOutcome Unit) : ActionResult :=
  match ApiClient.logout st.storage o with
  | (storage2, Except.ok _) =>
      ⟨⟨none, st.loading, storage2⟩, none,
        [⟨"Success", "Logged out successfully"⟩]⟩
  | (_, Except.error _) =>
      ⟨⟨none, st.loading, none⟩, none, []⟩

end AuthContext

/-- Decision of the route guard for one render. -/
inductive GuardDecision where
  | loadingIndicator
  | redirectToLogin
  | redirectToUnauthorized
  | renderChildren
deriving DecidableEq, Repr

/-- Modelled from the spec: the ProtectedRoute component imported by
src/App.tsx from "./components/ProtectedRoute" is not among the provided
sources, so this definition follows section 4.3 of the specification: while
the Session is still restoring, render a loading indicator; with no current
user, redirect to the login route; with a user and a non-empty allowed-roles
set that excludes the user role, redirect to the unauthorized route;
otherwise render the requested view.  An omitted allowedRoles prop is the
empty list, as in the App.tsx call sites. -/
def ProtectedRoute (loading : Bool) (user : Option User)
    (allowedRoles : List Role) : GuardDecision :=
  if loading then GuardDecision.loadingIndicator
  else
    match user with
    | none => GuardDecision.redirectToLogin
    | some u =>
        if allowedRoles.isEmpty || allowedRoles.contains u.role then
          GuardDecision.renderChildren
        else GuardDecision.redirectToUnauthorized

namespace AdminDashboard

/-- Live event as buffered by the admin dashboard (the EventData interface),
reduced to the fields the buffering logic reads. -/
structure LiveEvent where
  id : Nat
  type : String
deriving DecidableEq, Repr

/-- Local state touched by the event stream message handler: the bounded
recentEvents buffer, whether the stream is still open, and the toasts
surfaced so far. -/
structure StreamState where
  recentEvents : List LiveEvent
  isOpen : Bool
  toasts : List Toast
deriving DecidableEq, Repr

/-- The eventTypeMap literal of src/pages/admin/AdminDashboard.tsx lines
115-120. -/
def eventTypeMap (t : String) : Option String :=
  if t = "STUDENT_ENROLLED_IN_COURSE" then some "Student enrolled in course"
  else if t = "COURSE_CREATED" then some "New course created"
  else if t = "INSTRUCTOR_INVITED_STUDENT" then some "Student invited to course"
  else if t = "STUDENT_DROPPED_FROM_COURSE" then some "Student dropped from course"
  else none

/-- Embeds eventSource.onmessage (src/pages/admin/AdminDashboard.tsx lines
110-132).  The inbound payload is the outcome of JSON.parse on event.data:
Except.error when parsing threw (caught and only logged, state untouched),
Except.ok with the parsed event otherwise, which is prepended to the first
nine existing entries, with a toast when eventTypeMap knows the type. -/
def onmessage (st : StreamState) (payload : Except String LiveEvent) :
    StreamState :=
  match payload with
  | Except.error _ => st
  | Except.ok ev =>
      { st with
        recentEvents := ev :: st.recentEvents.take 9,
        toasts :=
          match eventTypeMap ev.type with
          | some m => st.toasts ++ [⟨"Real-time Update", m⟩]
          | none => st.toasts }

/-- Feeds a sequence of inbound messages to the handler. -/
def feedMessages (st : StreamState) (msgs : List (Except String LiveEvent)) :
    StreamState :=
  msgs.foldl onmessage st

/-- Stream state right after the channel is set up. -/
def initialStream : StreamState := ⟨[], true, []⟩

/-- World of open server-push connections, for the mount/unmount model. -/
structure AdminWorld where
  openStreams : List EventStreamConn
deriving DecidableEq, Repr

/-- Embeds setupEventStream (src/pages/admin/AdminDashboard.tsx lines
102-148): when createEventStream succeeds the connection is opened and the
function returns the closure that would close it; when createEventStream
throws, the catch shows a toast and the function returns undefined. -/
def setupEventStream (storage : Option String) (w : AdminWorld) :
    AdminWorld × Option (AdminWorld → AdminWorld) :=
  match ApiClient.createEventStream storage with
  | Except.ok conn =>
      (⟨conn :: w.openStreams⟩,
       some (fun w2 => ⟨w2.openStreams.erase conn⟩))
  | Except.error _ => (w, none)

/-- Embeds the mount effect (src/pages/admin/AdminDashboard.tsx lines
64-67): the effect body calls setupEventStream() as a statement, so the
cleanup closure setupEventStream returns is discarded and the effect itself
returns undefined — no cleanup is registered with React. -/
def mountAdminDashboard (storage : Option String) (w : AdminWorld) :
    AdminWorld × Option (AdminWorld → AdminWorld) :=
  ((setupEventStream storage w).1, none)

/-- React unmount: run the registered cleanup when there is one. -/
def unmountView (cleanup : Option (AdminWorld → AdminWorld)) (w : AdminWorld) :
    AdminWorld :=
  match cleanup with
  | some f => f w
  | none => w

end AdminDashboard

/-- ECMAScript WhiteSpace and LineTerminator code points, the set removed by
String.prototype.trim. -/
def jsWhitespace (c : Char) : Bool :=
  c = Char.ofNat 9 || c = Char.ofNat 10 || c = Char.ofNat 11 ||
  c = Char.ofNat 12 || c = Char.ofNat 13 || c = Char.ofNat 32 ||
  c = Char.ofNat 0xA0 || c = Char.ofNat 0x1680 ||
  (0x2000 ≤ c.toNat && c.toNat ≤ 0x200A) ||
  c = Char.ofNat 0x2028 || c = Char.ofNat 0x2029 ||
  c = Char.ofNat 0x202F || c = Char.ofNat 0x205F ||
  c = Char.ofNat 0x3000 || c = Char.ofNat 0xFEFF

/-- Model of the ECMAScript String.prototype.trim built-in. -/
def jsTrim (s : String) : String :=
  String.mk (((s.data.dropWhile jsWhitespace).reverse.dropWhile jsWhitespace).reverse)

namespace CourseChat

/-- Author subrecord of a chat message (CourseMessage interface in
src/components/Layout.tsx). -/
structure ChatUser where
  id : Nat
  username : String
  email : String
  firstName : String
  lastName : String
deriving DecidableEq, Repr

/-- Chat message as received from the server. -/
structure CourseMessage where
  id : Nat
  text : String
  user : ChatUser
  createdAt : String
deriving DecidableEq, Repr

/-- Embeds the canAccessChat predicate (src/components/Layout.tsx lines
174-175): instructors always pass, otherwise the enrollment status must be
exactly ACTIVE.  The status is Option String since the prop is optional. -/
def canAccessChat (user : Option User) (userEnrollmentStatus : Option String) :
    Bool :=
  (match user with
   | some u => u.role = Role.INSTRUCTOR
   | none => false) || userEnrollmentStatus = some "ACTIVE"

/-- One socket.emit call, by event name and course id. -/
structure SocketEmit where
  event : String
  courseId : Nat
deriving DecidableEq, Repr

/-- Observable result of mounting CourseChat: the join emits sent, whether a
socket was created, and the value of the loading flag after the effect. -/
structure ChatMountResult where
  emits : List SocketEmit
  socketOpened : Bool
  loading : Bool
deriving DecidableEq, Repr

/-- Embeds the CourseChat mount effect (src/components/Layout.tsx lines
177-238): when canAccessChat is false the effect only sets loading to
false; when it is true but no token is stored the effect returns early
before creating the socket, leaving loading true; otherwise it opens the
socket and emits one joinCourse request for the course. -/
def mountEffect (user : Option User) (userEnrollmentStatus : Option String)
    (storage : Option String) (courseId : Nat) : ChatMountResult :=
  if canAccessChat user userEnrollmentStatus then
    match storage with
    | none => ⟨[], false, true⟩
    | some _ => ⟨[⟨"joinCourse", courseId⟩], true, true⟩
  else ⟨[], false, false⟩

/-- What CourseChat renders. -/
inductive ChatView where
  | unavailableCard
  | loadingSpinner
  | chatCard
deriving DecidableEq, Repr

/-- Embeds the render branches of CourseChat (src/components/Layout.tsx
lines 288-316): the Chat Unavailable card when canAccessChat is false, the
spinner while loading, the chat card otherwise. -/
def renderView (user : Option User) (userEnrollmentStatus : Option String)
    (loading : Bool) : ChatView :=
  if canAccessChat user userEnrollmentStatus = false then ChatView.unavailableCard
  else if loading then ChatView.loadingSpinner
  else ChatView.chatCard

/-- Payload of a sendCourseMessage emit. -/
structure SendPayload where
  courseId : Nat
  userId : Nat
  username : String
  text : String
deriving DecidableEq, Repr

/-- Observable result of one submit of the chat form: the payload emitted
(none when the guard returned early), the input field afterwards, and the
message list afterwards. -/
structure SendResult where
  emitted : Option SendPayload
  newMessage : String
  messages : List CourseMessage
deriving DecidableEq, Repr

/-- Embeds handleSendMessage (src/components/Layout.tsx lines 248-261):
return early unless the trimmed input is truthy, the socket exists and the
user exists; otherwise emit the structured payload with the trimmed text and
clear the input, leaving the message list untouched. -/
def handleSendMessage (courseId : Nat) (user : Option User)
    (socketConnected : Bool) (messages : List CourseMessage)
    (newMessage : String) : SendResult :=
  if jsTrim newMessage = "" ∨ socketConnected = false ∨ user = none then
    ⟨none, newMessage, messages⟩
  else
    match user with
    | some u =>
        ⟨some ⟨courseId, u.id, u.username, jsTrim newMessage⟩, "", messages⟩
    | none => ⟨none, newMessage, messages⟩

end CourseChat

/-- Concrete student used to instantiate theorems on explicit inputs. -/
def sampleStudent : User :=
  ⟨1, "stu at example", "stu", "Sam", "Lee", none, none, Role.STUDENT, true,
   "2024-01-01", "2024-01-01"⟩

/-- Concrete instructor used to instantiate theorems on explicit inputs. -/
def sampleInstructor : User :=
  ⟨2, "ins at example", "ins", "Ina", "Ray", none, none, Role.INSTRUCTOR, true,
   "2024-01-01", "2024-01-01"⟩

/-- C1: with no stored token the boot restoration ends with an empty session,
loading already false and zero who-am-i calls; with a stored token and any
failing who-am-i outcome the token is removed and the session ends empty; on
every path the restoration ends with loading false. -/
theorem checkAuthStatus_restoration :
    (∀ o : HttpOutcome User,
        (AuthContext.checkAuthStatus none o).state.user = none ∧
        (AuthContext.checkAuthStatus none o).state.loading = false ∧
        (AuthContext.checkAuthStatus none o).whoAmICalls = 0) ∧
    (∀ (t : String) (o : HttpOutcome User), o.isFailure = true →
        (AuthContext.checkAuthStatus (some t) o).state.storage = none ∧
        (AuthContext.checkAuthStatus (some t) o).state.user = none ∧
        (AuthContext.checkAuthStatus (some t) o).state.loading = false) ∧
    (∀ (s : Option String) (o : HttpOutcome User),
        (AuthContext.checkAuthStatus s o).state.loading = false) := by
  refine ⟨fun o => ⟨rfl, rfl, rfl⟩, fun t o ho => ?_, fun s o => ?_⟩
  · cases o with
    | success v => simp [HttpOutcome.isFailure] at ho
    | httpError status body =>
        simp [AuthContext.checkAuthStatus, ApiClient.getMe, ApiClient.request]
    | networkError m =>
        simp [AuthContext.checkAuthStatus, ApiClient.getMe, ApiClient.request]
  · cases s with
    | none => rfl
    | some t =>
        cases o with
        | success v => rfl
        | httpError status body =>
            simp [AuthContext.checkAuthStatus, ApiClient.getMe, ApiClient.request]
        | networkError m =>
            simp [AuthContext.checkAuthStatus, ApiClient.getMe, ApiClient.request]

/-- C1 witness: the failure branch of the restoration theorem at a concrete
token and a concrete network failure. -/
theorem checkAuthStatus_restoration_witness :
    (AuthContext.checkAuthStatus (some "tok")
        (HttpOutcome.networkError "down")).state.storage = none ∧
    (AuthContext.checkAuthStatus (some "tok")
        (HttpOutcome.networkError "down")).state.user = none ∧
    (AuthContext.checkAuthStatus (some "tok")
        (HttpOutcome.networkError "down")).state.loading = false :=
  checkAuthStatus_restoration.2.1 "tok" (HttpOutcome.networkError "down")
    (by decide)

/-- C2: for every starting state and every server outcome, logout clears the
user, deletes the stored token, and raises nothing; running logout a second
time from the resulting state, with any outcome, again leaves no user, no
token and nothing raised. -/
theorem logout_always_clears (st : AuthContext.AuthState)
    (o o2 : HttpOutcome Unit) :
    (AuthContext.logout st o).state.user = none ∧
    (AuthContext.logout st o).state.storage = none ∧
    (AuthContext.logout st o).raised = none ∧
    (AuthContext.logout (AuthContext.logout st o).state o2).state.user = none ∧
    (AuthContext.logout (AuthContext.logout st o).state o2).state.storage = none ∧
    (AuthContext.logout (AuthContext.logout st o).state o2).raised = none := by
  cases o <;> cases o2 <;>
    simp [AuthContext.logout, ApiClient.logout, ApiClient.request]

/-- C3 (amended): every failed login leaves the whole auth state unchanged
and re-raises some error; the raised message equals the server message when
the error body holds a non-empty one; when the message is the empty string,
absent, or the body did not parse, the message is the fallback
"HTTP error! status: <code>"; a transport failure re-raises the transport
error message. -/
theorem login_failure_spec (st : AuthContext.AuthState) (status : Nat)
    (m netMsg : String) (hm : m ≠ "") :
    (∀ o : HttpOutcome ApiClient.LoginResponse, o.isFailure = true →
        (AuthContext.login st o).state = st ∧
        (AuthContext.login st o).raised.isSome = true) ∧
    (AuthContext.login st (HttpOutcome.httpError status (some ⟨some m⟩))).raised
      = some m ∧
    (AuthContext.login st (HttpOutcome.httpError status (some ⟨some ""⟩))).raised
      = some ("HTTP error! status: " ++ toString status) ∧
    (AuthContext.login st (HttpOutcome.httpError status (some ⟨none⟩))).raised
      = some ("HTTP error! status: " ++ toString status) ∧
    (AuthContext.login st (HttpOutcome.httpError status none)).raised
      = some ("HTTP error! status: " ++ toString status) ∧
    (AuthContext.login st (HttpOutcome.networkError netMsg)).raised
      = some netMsg := by
  refine ⟨fun o ho => ?_, ?_, ?_, ?_, ?_, ?_⟩
  · cases o with
    | success v => simp [HttpOutcome.isFailure] at ho
    | httpError s2 b =>
        refine ⟨?_, by simp [AuthContext.login, ApiClient.login, ApiClient.request]⟩
        simp [AuthContext.login, ApiClient.login, ApiClient.request]
    | networkError msg =>
        refine ⟨?_, by simp [AuthContext.login, ApiClient.login, ApiClient.request]⟩
        simp [AuthContext.login, ApiClient.login, ApiClient.request]
  · simp [AuthContext.login, ApiClient.login, ApiClient.request, strTruthy, hm]
  · simp [AuthContext.login, ApiClient.login, ApiClient.request, strTruthy]
  · simp [AuthContext.login, ApiClient.login, ApiClient.request]
  · simp [AuthContext.login, ApiClient.login, ApiClient.request]
  · simp [AuthContext.login, ApiClient.login, ApiClient.request]

/-- C3 witness: the failure-spec theorem at a concrete state, status 401, the
concrete body message "Invalid credentials" and a concrete transport error. -/
theorem login_failure_spec_witness :
    (AuthContext.login ⟨none, false, none⟩
        (HttpOutcome.httpError 401 (some ⟨some "Invalid credentials"⟩))).raised
      = some "Invalid credentials" ∧
    (AuthContext.login ⟨none, false, none⟩
        (HttpOutcome.httpError 401 (some ⟨some ""⟩))).raised
      = some "HTTP error! status: 401" :=
  ⟨(login_failure_spec ⟨none, false, none⟩ 401 "Invalid credentials" "net"
      (by decide)).2.1,
   (login_failure_spec ⟨none, false, none⟩ 401 "Invalid credentials" "net"
      (by decide)).2.2.1⟩

/-- C3 counterexample: when the error body holds the message field with the
empty string — a body that does contain a message field — the raised error
carries the fallback text, not that server-provided message. -/
theorem login_empty_message_counterexample :
    (AuthContext.login ⟨none, false, none⟩
        (HttpOutcome.httpError 401 (some ⟨some ""⟩))).raised
      = some "HTTP error! status: 401" ∧
    (AuthContext.login ⟨none, false, none⟩
        (HttpOutcome.httpError 401 (some ⟨some ""⟩))).raised ≠ some "" := by
  decide

/-- C4 (amended): a successful login whose response carries a non-empty
accessToken ends with the session populated by the returned user, the token
already written to storage by the ApiClient.login side effect, and no error
raised. -/
theorem login_success_spec (st : AuthContext.AuthState)
    (resp : ApiClient.LoginResponse) (h : resp.accessToken ≠ "") :
    (AuthContext.login st (HttpOutcome.success resp)).state.user
      = some resp.user ∧
    (AuthContext.login st (HttpOutcome.success resp)).state.storage
      = some resp.accessToken ∧
    (ApiClient.login st.storage (HttpOutcome.success resp)).1
      = some resp.accessToken ∧
    (AuthContext.login st (HttpOutcome.success resp)).raised = none := by
  refine ⟨?_, ?_, ?_, ?_⟩ <;>
    simp [AuthContext.login, ApiClient.login, ApiClient.request, strTruthy, h]

/-- C4 witness: the success theorem at a concrete state and a concrete
response carrying the token "jwt" and the sample student. -/
theorem login_success_spec_witness :
    (AuthContext.login ⟨none, false, none⟩
        (HttpOutcome.success ⟨"jwt", sampleStudent⟩)).state.user
      = some sampleStudent ∧
    (AuthContext.login ⟨none, false, none⟩
        (HttpOutcome.success ⟨"jwt", sampleStudent⟩)).state.storage
      = some "jwt" :=
  ⟨(login_success_spec ⟨none, false, none⟩ ⟨"jwt", sampleStudent⟩ (by decide)).1,
   (login_success_spec ⟨none, false, none⟩ ⟨"jwt", sampleStudent⟩ (by decide)).2.1⟩

/-- C4 counterexample: a login response whose accessToken is the empty string
is accepted (the user is set) but the guard in ApiClient.login skips the
store, so storage does not contain the returned token. -/
theorem login_empty_token_counterexample :
    (AuthContext.login ⟨none, false, none⟩
        (HttpOutcome.success ⟨"", sampleStudent⟩)).state.user
      = some sampleStudent ∧
    (AuthContext.login ⟨none, false, none⟩
        (HttpOutcome.success ⟨"", sampleStudent⟩)).state.storage ≠ some "" := by
  constructor
  · simp [AuthContext.login, ApiClient.login, ApiClient.request, strTruthy]
  · simp [AuthContext.login, ApiClient.login, ApiClient.request, strTruthy]

/-- C5: once the session has finished restoring, an empty allowed-roles set admits every
authenticated user; allowed-roles [ADMIN] redirects a STUDENT user to the
unauthorized route; with no user every allowed-roles set redirects to the
login route; while the session is still restoring the guard renders the
loading indicator and makes no decision. -/
theorem protectedRoute_decisions (u : User) (roles : List Role)
    (hstu : u.role = Role.STUDENT) :
    (∀ v : User,
        ProtectedRoute false (some v) [] = GuardDecision.renderChildren) ∧
    (ProtectedRoute false (some u) [Role.ADMIN]
        = GuardDecision.redirectToUnauthorized) ∧
    (ProtectedRoute false none roles = GuardDecision.redirectToLogin) ∧
    (∀ (user : Option User) (rs : List Role),
        ProtectedRoute true user rs = GuardDecision.loadingIndicator) := by
  refine ⟨fun v => rfl, ?_, rfl, fun user rs => rfl⟩
  simp [ProtectedRoute, hstu]

/-- C5 witness: the guard theorem at the sample student and a concrete
allowed-roles list. -/
theorem protectedRoute_decisions_witness :
    (ProtectedRoute false (some sampleStudent) [Role.ADMIN]
        = GuardDecision.redirectToUnauthorized) ∧
    (ProtectedRoute false none [Role.INSTRUCTOR]
        = GuardDecision.redirectToLogin) :=
  ⟨(protectedRoute_decisions sampleStudent [Role.INSTRUCTOR] (by decide)).2.1,
   (protectedRoute_decisions sampleStudent [Role.INSTRUCTOR] (by decide)).2.2.1⟩

/-- Helper: a run of messages that all fail to parse leaves the stream state
exactly as it was. -/
theorem feedMessages_errors_id (st : AdminDashboard.StreamState) (n : Nat)
    (e : String) :
    AdminDashboard.feedMessages st (List.replicate n (Except.error e)) = st := by
  induction n with
  | zero => rfl
  | succ k ih =>
      rw [List.replicate_succ]
      exact ih

/-- C6: a message that fails JSON parsing leaves the state (buffer, open
flag, toasts) untouched; a parsed event is prepended to the first nine
buffered events without closing the channel; the buffer never grows past
ten entries; n malformed payloads followed by one well-formed event leave
the buffer holding exactly that event; eleven well-formed events leave the
ten most recent in most-recent-first order. -/
theorem onmessage_buffer_spec :
    (∀ (st : AdminDashboard.StreamState) (e : String),
        AdminDashboard.onmessage st (Except.error e) = st) ∧
    (∀ (st : AdminDashboard.StreamState) (ev : AdminDashboard.LiveEvent),
        (AdminDashboard.onmessage st (Except.ok ev)).recentEvents
          = ev :: st.recentEvents.take 9 ∧
        (AdminDashboard.onmessage st (Except.ok ev)).isOpen = st.isOpen) ∧
    (∀ (st : AdminDashboard.StreamState)
        (p : Except String AdminDashboard.LiveEvent),
        st.recentEvents.length ≤ 10 →
        (AdminDashboard.onmessage st p).recentEvents.length ≤ 10) ∧
    (∀ (n : Nat) (e : String) (ev : AdminDashboard.LiveEvent),
        (AdminDashboard.feedMessages AdminDashboard.initialStream
            (List.replicate n (Except.error e) ++ [Except.ok ev])).recentEvents
          = [ev]) ∧
    (∀ e1 e2 e3 e4 e5 e6 e7 e8 e9 e10 e11 : AdminDashboard.LiveEvent,
        (AdminDashboard.feedMessages AdminDashboard.initialStream
            [Except.ok e1, Except.ok e2, Except.ok e3, Except.ok e4,
             Except.ok e5, Except.ok e6, Except.ok e7, Except.ok e8,
             Except.ok e9, Except.ok e10, Except.ok e11]).recentEvents
          = [e11, e10, e9, e8, e7, e6, e5, e4, e3, e2]) := by
  refine ⟨fun st e => rfl, fun st ev => ⟨rfl, rfl⟩, ?_, ?_, ?_⟩
  · intro st p h
    cases p with
    | error e => simpa using h
    | ok ev =>
        simp [AdminDashboard.onmessage, List.length_take]
  · intro n e ev
    have h := feedMessages_errors_id AdminDashboard.initialStream n e
    simp only [AdminDashboard.feedMessages] at h ⊢
    rw [List.foldl_append, h]
    rfl
  · intro e1 e2 e3 e4 e5 e6 e7 e8 e9 e10 e11
    rfl

/-- C6 witness: the bound and the malformed-run parts of the buffer theorem
at concrete inputs. -/
theorem onmessage_buffer_spec_witness :
    (AdminDashboard.onmessage ⟨[], true, []⟩
        (Except.ok ⟨1, "COURSE_CREATED"⟩)).recentEvents.length ≤ 10 ∧
    (AdminDashboard.feedMessages AdminDashboard.initialStream
        (List.replicate 3 (Except.error "not json") ++
          [Except.ok ⟨1, "COURSE_CREATED"⟩])).recentEvents
      = [⟨1, "COURSE_CREATED"⟩] :=
  ⟨onmessage_buffer_spec.2.2.1 ⟨[], true, []⟩
      (Except.ok ⟨1, "COURSE_CREATED"⟩) (by decide),
   onmessage_buffer_spec.2.2.2.1 3 "not json" ⟨1, "COURSE_CREATED"⟩⟩

/-- C7 (amended): a student whose enrollment status is anything other than
ACTIVE never opens the socket, emits no join request, and sees the disabled
card; a mount with status ACTIVE and a stored token emits exactly the one
joinCourse request; an instructor with a stored token always gets the socket
opened with the one joinCourse request, whatever the enrollment status. -/
theorem chat_mount_access_spec (u : User) (status storage : Option String)
    (t : String) (cid : Nat) (hstu : u.role = Role.STUDENT)
    (hact : status ≠ some "ACTIVE") :
    ((CourseChat.mountEffect (some u) status storage cid).emits = [] ∧
     (CourseChat.mountEffect (some u) status storage cid).socketOpened = false ∧
     CourseChat.renderView (some u) status
        (CourseChat.mountEffect (some u) status storage cid).loading
       = CourseChat.ChatView.unavailableCard) ∧
    ((CourseChat.mountEffect (some u) (some "ACTIVE") (some t) cid).emits
       = [⟨"joinCourse", cid⟩]) ∧
    (∀ v : User, v.role = Role.INSTRUCTOR →
        (CourseChat.mountEffect (some v) status (some t) cid).socketOpened
          = true ∧
        (CourseChat.mountEffect (some v) status (some t) cid).emits
          = [⟨"joinCourse", cid⟩]) := by
  refine ⟨?_, ?_, ?_⟩
  · simp [CourseChat.mountEffect, CourseChat.renderView, CourseChat.canAccessChat,
          hstu, hact]
  · simp [CourseChat.mountEffect, CourseChat.canAccessChat]
  · intro v hv
    simp [CourseChat.mountEffect, CourseChat.canAccessChat, hv]

/-- C7 witness: the access theorem at the sample student with PENDING status
and a stored token. -/
theorem chat_mount_access_spec_witness :
    ((CourseChat.mountEffect (some sampleStudent) (some "PENDING")
        (some "tok") 7).emits = [] ∧
     (CourseChat.mountEffect (some sampleStudent) (some "PENDING")
        (some "tok") 7).socketOpened = false ∧
     CourseChat.renderView (some sampleStudent) (some "PENDING")
        (CourseChat.mountEffect (some sampleStudent) (some "PENDING")
          (some "tok") 7).loading = CourseChat.ChatView.unavailableCard) ∧
    (CourseChat.mountEffect (some sampleStudent) (some "ACTIVE")
        (some "tok") 7).emits = [⟨"joinCourse", 7⟩] :=
  ⟨(chat_mount_access_spec sampleStudent (some "PENDING") (some "tok") "tok" 7
      (by decide) (by decide)).1,
   (chat_mount_access_spec sampleStudent (some "PENDING") (some "tok") "tok" 7
      (by decide) (by decide)).2.1⟩

/-- C7 counterexample: a student with ACTIVE status but no stored token
passes the access check, yet the mount effect returns before opening the
socket, so zero join requests are emitted instead of exactly one. -/
theorem chat_mount_no_token_counterexample :
    CourseChat.canAccessChat (some sampleStudent) (some "ACTIVE") = true ∧
    (CourseChat.mountEffect (some sampleStudent) (some "ACTIVE") none 7).emits
      = [] ∧
    (CourseChat.mountEffect
        (some sampleStudent) (some "ACTIVE") none 7).socketOpened = false := by
  decide

/-- C8: a payload is emitted only with non-empty trimmed text and a live
socket, and it is the structured record built from the course id, the user
id and username, and the trimmed text; the message list is never touched by
a send; a blank input or a missing socket emits nothing and leaves the
input as it was; on a successful send the input is cleared immediately. -/
theorem handleSendMessage_spec (cid : Nat) (user : Option User) (conn : Bool)
    (msgs : List CourseChat.CourseMessage) (input : String)
    (hne : jsTrim input ≠ "") :
    (∀ p, (CourseChat.handleSendMessage cid user conn msgs input).emitted
        = some p →
        jsTrim input ≠ "" ∧ conn = true ∧
        ∃ u, user = some u ∧ p = ⟨cid, u.id, u.username, jsTrim input⟩) ∧
    ((CourseChat.handleSendMessage cid user conn msgs input).messages = msgs) ∧
    (∀ s : String, jsTrim s = "" →
        (CourseChat.handleSendMessage cid user conn msgs s).emitted = none ∧
        (CourseChat.handleSendMessage cid user conn msgs s).newMessage = s) ∧
    ((CourseChat.handleSendMessage cid user false msgs input).emitted = none) ∧
    (∀ u : User, user = some u → conn = true →
        (CourseChat.handleSendMessage cid user conn msgs input).emitted
          = some ⟨cid, u.id, u.username, jsTrim input⟩ ∧
        (CourseChat.handleSendMessage cid user conn msgs input).newMessage
          = "") := by
  refine ⟨?_, ?_, ?_, ?_, ?_⟩
  · intro p hp
    by_cases hc : jsTrim input = "" ∨ conn = false ∨ user = none
    · simp [CourseChat.handleSendMessage, hc] at hp
    · push_neg at hc
      obtain ⟨h1, h2, h3⟩ := hc
      cases user with
      | none => simp at h3
      | some u =>
          refine ⟨h1, by simpa using h2, u, rfl, ?_⟩
          simp [CourseChat.handleSendMessage, h1, by simpa using h2] at hp
          exact hp.symm
  · by_cases hc : jsTrim input = "" ∨ conn = false ∨ user = none
    · simp [CourseChat.handleSendMessage, hc]
    · push_neg at hc
      obtain ⟨h1, h2, h3⟩ := hc
      cases user with
      | none => simp at h3
      | some u => simp [CourseChat.handleSendMessage, h1, by simpa using h2]
  · intro s hs
    simp [CourseChat.handleSendMessage, hs]
  · simp [CourseChat.handleSendMessage]
  · intro u hu hc
    subst hu
    subst hc
    simp [CourseChat.handleSendMessage, hne]

/-- C8 witness: the send theorem at the sample student, a live socket and the
input " hi " (trimming to "hi"). -/
theorem handleSendMessage_spec_witness :
    (CourseChat.handleSendMessage 7 (some sampleStudent) true [] " hi ").emitted
      = some ⟨7, sampleStudent.id, sampleStudent.username, jsTrim " hi "⟩ ∧
    (CourseChat.handleSendMessage
        7 (some sampleStudent) true [] " hi ").newMessage = "" :=
  (handleSendMessage_spec 7 (some sampleStudent) true [] " hi "
      (by decide)).2.2.2.2 sampleStudent rfl rfl

/-- C9: mounting the admin dashboard with a stored token opens one event
stream, and setupEventStream does build a closing cleanup, but the mount
effect discards it and registers none, so the unmount step closes nothing
and the connection count stays one above what it was before the mount. -/
theorem adminDashboard_unmount_leaks (t : String)
    (w : AdminDashboard.AdminWorld) :
    (AdminDashboard.unmountView
        (AdminDashboard.mountAdminDashboard (some t) w).2
        (AdminDashboard.mountAdminDashboard (some t) w).1).openStreams.length
      = w.openStreams.length + 1 ∧
    (AdminDashboard.setupEventStream (some t) w).2.isSome = true ∧
    (AdminDashboard.mountAdminDashboard (some t) w).2 = none := by
  refine ⟨?_, rfl, rfl⟩
  simp [AdminDashboard.mountAdminDashboard, AdminDashboard.unmountView,
        AdminDashboard.setupEventStream, ApiClient.createEventStream]

/-- C10: with no stored token the event-stream constructor throws the error
"No authentication token found" and no handle is produced; with a stored
token it opens the stream URL with the URL-encoded token as the token query
parameter (and credentials enabled); the encoding percent-escapes reserved
characters. -/
theorem createEventStream_spec (t : String) :
    ApiClient.createEventStream none
      = Except.error "No authentication token found" ∧
    ApiClient.createEventStream (some t)
      = Except.ok
          ⟨"http://localhost:3000/event/stream?token="
            ++ encodeURIComponent t, true⟩ ∧
    encodeURIComponent "a b&c=1" = "a%20b%26c%3D1" := by
  refine ⟨rfl, rfl, by decide⟩

end ELearn
